import Mathlib

/-!
Verification development for the NotebookML vector-database layer
(`src/notebookml/db.py`): metadata model, flatten/reconstruct codec,
content-addressed identity scheme and the store facade (`VectorDatabase`).

The Python records are pydantic models; we embed them as Lean structures.
`datetime` values are embedded as integers counting microseconds since the
Unix epoch (Python `datetime` has microsecond resolution; naive datetimes
are read at UTC).  Python floats arising from `datetime.timestamp()` are
embedded as exact rationals (`ℚ`); this is faithful to well over second
precision, which is all the specification demands.
-/

/-- A point in time: microseconds since the Unix epoch.  Embeds Python
`datetime` (microsecond resolution, naive/UTC). -/
abbrev Datetime := Int

/-- `datetime.timestamp()`: seconds since the epoch as a (here: exact)
numeric value, `d / 10 ^ 6`. -/
def dtTimestamp (d : Datetime) : ℚ := Rat.divInt d 1000000

/-- `datetime.fromtimestamp(q)`: seconds back to a datetime, rounding to
the nearest microsecond (Python rounds half-to-even; the two conventions
agree everywhere except at exact half-microsecond inputs, which never arise
from `dtTimestamp`). -/
def dtFromTimestamp (q : ℚ) : Datetime :=
  (q.num * 2000000 + (q.den : Int)) / ((q.den : Int) * 2)

/-- Scalar values appearing in (possibly nested) Python dicts passed around
by pydantic / FlatDict / chromadb: strings, numbers, `None`, and structured
`datetime` objects. -/
inductive Value where
  | vStr (s : String)
  | vNum (q : ℚ)
  | vNone
  | vDt (d : Datetime)
deriving Repr, DecidableEq

/-- A JSON-like nested mapping value: either a scalar or a nested dict
(an insertion-ordered association list, like a Python dict). -/
inductive NValue where
  | scalar (v : Value)
  | obj (fields : List (String × NValue))

/-- A flat string-keyed mapping, as required by the chromadb metadata
interface. -/
abbrev FlatMap := List (String × Value)

/-- Python dict lookup on an association list (first match). -/
def getKey : List (String × NValue) → String → Option NValue
  | [], _ => none
  | (k, v) :: rest, key => if k = key then some v else getKey rest key

/-- Python dict assignment: replace in place if the key exists, else append. -/
def setKey : List (String × NValue) → String → NValue → List (String × NValue)
  | [], k, v => [(k, v)]
  | (k0, v0) :: rest, k, v =>
    if k0 = k then (k0, v) :: rest else (k0, v0) :: setKey rest k v

/-! ## The metadata model (pydantic models of `db.py`) -/

/-- `EntityMeta`: metadata for an entity.  `name` is `Optional[str]` with
default `''` (Lean: `Option String`, default `some ""`); pydantic's
`enum=` keyword on `type` is json-schema metadata only and installs no
validator, so `type` admits any string. -/
structure EntityMeta where
  created_datetime : Datetime
  type : String
  name : Option String
  id : String
deriving Repr, DecidableEq

/-- `SourceMeta`: metadata for a source.  `ref` and `url` are
`Optional[str]` with default `''`. -/
structure SourceMeta where
  created_datetime : Datetime
  type : String
  ref : Option String
  url : Option String
deriving Repr, DecidableEq

/-- `DataMeta`: metadata for a database entry. -/
structure DataMeta where
  created_datetime : Datetime
  type : String
  owner : EntityMeta
  creator : EntityMeta
  source : SourceMeta
deriving Repr, DecidableEq

/-- `Data`: a stored unit, metadata plus text content. -/
structure Data where
  meta : DataMeta
  content : String
deriving Repr, DecidableEq

/-- `NULL_ENTITY` of `db.py` (2000-01-01 00:00:00, read at UTC). -/
def NULL_ENTITY : EntityMeta :=
  { created_datetime := 946684800000000, type := "undef", name := some "null", id := "" }

/-! ## Serialization (`model_dump`) -/

/-- The `@field_serializer` on `created_datetime`: `model_dump` emits
`dt.timestamp()`, a number. -/
def serialize_dt (d : Datetime) : Value := .vNum (dtTimestamp d)

/-- Dump of an `Optional[str]` field value (`None ↦ null`). -/
def optStrVal : Option String → Value
  | none => .vNone
  | some s => .vStr s

/-- `EntityMeta.model_dump()`: fields in pydantic declaration order,
inherited field first. -/
def EntityMeta.dump (m : EntityMeta) : List (String × NValue) :=
  [("created_datetime", .scalar (serialize_dt m.created_datetime)),
   ("type", .scalar (.vStr m.type)),
   ("name", .scalar (optStrVal m.name)),
   ("id", .scalar (.vStr m.id))]

/-- `SourceMeta.model_dump()`. -/
def SourceMeta.dump (m : SourceMeta) : List (String × NValue) :=
  [("created_datetime", .scalar (serialize_dt m.created_datetime)),
   ("type", .scalar (.vStr m.type)),
   ("ref", .scalar (optStrVal m.ref)),
   ("url", .scalar (optStrVal m.url))]

/-- `DataMeta.model_dump()`: nested models dump recursively. -/
def DataMeta.dump (m : DataMeta) : List (String × NValue) :=
  [("created_datetime", .scalar (serialize_dt m.created_datetime)),
   ("type", .scalar (.vStr m.type)),
   ("owner", .obj m.owner.dump),
   ("creator", .obj m.creator.dump),
   ("source", .obj m.source.dump)]

/-! ## Validation (`model_validate`)

Pydantic validation of a dict against the model: required fields must be
present with the right shape, optional fields fall back to their defaults,
extra keys are ignored.  Errors are reported as messages
(`ValidationError`). -/

/-- The `@field_validator("created_datetime", mode="before")` of `MetaData`
followed by pydantic core datetime validation: a numeric value is read as an
epoch timestamp (`datetime.fromtimestamp`), a structured datetime passes
through.  (ISO-8601 string parsing by pydantic core is not exercised by this
codebase and is not modelled.) -/
def validate_dt : Value → Except String Datetime
  | .vNum q => .ok (dtFromTimestamp q)
  | .vDt d => .ok d
  | _ => .error "datetime expected"

/-- Validate a required `created_datetime` field. -/
def validateDtField : Option NValue → Except String Datetime
  | some (.scalar v) => validate_dt v
  | some (.obj _) => .error "datetime expected"
  | none => .error "field required: created_datetime"

/-- Validate a required `str` field. -/
def validateStrField (fld : String) : Option NValue → Except String String
  | some (.scalar (.vStr s)) => .ok s
  | some _ => .error ("string expected: " ++ fld)
  | none => .error ("field required: " ++ fld)

/-- Validate an `Optional[str]` field with default `''`. -/
def validateOptStrField (fld : String) : Option NValue → Except String (Option String)
  | some (.scalar (.vStr s)) => .ok (some s)
  | some (.scalar .vNone) => .ok none
  | some _ => .error ("string expected: " ++ fld)
  | none => .ok (some "")

/-- `EntityMeta.model_validate` on a nested mapping. -/
def EntityMeta.validate (m : List (String × NValue)) : Except String EntityMeta := do
  let dt ← validateDtField (getKey m "created_datetime")
  let ty ← validateStrField "type" (getKey m "type")
  let nm ← validateOptStrField "name" (getKey m "name")
  let i ← validateStrField "id" (getKey m "id")
  .ok { created_datetime := dt, type := ty, name := nm, id := i }

/-- `SourceMeta.model_validate` on a nested mapping. -/
def SourceMeta.validate (m : List (String × NValue)) : Except String SourceMeta := do
  let dt ← validateDtField (getKey m "created_datetime")
  let ty ← validateStrField "type" (getKey m "type")
  let r ← validateOptStrField "ref" (getKey m "ref")
  let u ← validateOptStrField "url" (getKey m "url")
  .ok { created_datetime := dt, type := ty, ref := r, url := u }

/-- Validate a required nested-model field. -/
def validateObjField (fld : String) (f : List (String × NValue) → Except String α) :
    Option NValue → Except String α
  | some (.obj fs) => f fs
  | some (.scalar _) => .error ("mapping expected: " ++ fld)
  | none => .error ("field required: " ++ fld)

/-- `DataMeta.model_validate` on a nested mapping. -/
def DataMeta.validate (m : List (String × NValue)) : Except String DataMeta := do
  let dt ← validateDtField (getKey m "created_datetime")
  let ty ← validateStrField "type" (getKey m "type")
  let ow ← validateObjField "owner" EntityMeta.validate (getKey m "owner")
  let cr ← validateObjField "creator" EntityMeta.validate (getKey m "creator")
  let so ← validateObjField "source" SourceMeta.validate (getKey m "source")
  .ok { created_datetime := dt, type := ty, owner := ow, creator := cr, source := so }

/-! ## The flatten codec: `dict(FlatDict(nested, delimiter=chr(46)))`

`FlatDict` walks the nested dict depth-first in insertion order and joins
key paths with the delimiter. -/

mutual

/-- Flatten one dict entry under prefixed key `k`. -/
def flattenV (k : String) : NValue → List (String × Value)
  | .scalar v => [(k, v)]
  | .obj fs => (flattenFs fs).map (fun p => (k ++ "." ++ p.1, p.2))

/-- Flatten a nested dict into a flat mapping. -/
def flattenFs : List (String × NValue) → List (String × Value)
  | [] => []
  | (k, v) :: rest => flattenV k v ++ flattenFs rest

end

/-- `dict(FlatDict(d, delimiter='.'))` of the `flatdict` package. -/
def flatDict (d : List (String × NValue)) : FlatMap := flattenFs d

/-! ## The reconstruct codec: `unflatten` -/

/-- `key.split('.')`, structurally recursive over the characters. -/
def splitAux : List Char → List Char → List String
  | [], acc => [String.mk acc.reverse]
  | c :: cs, acc =>
    if c = '.' then String.mk acc.reverse :: splitAux cs [] else splitAux cs (c :: acc)

/-- Split a key into its `.`-delimited path components. -/
def splitKey (s : String) : List String := splitAux s.data []

/-- Insert a value at a key path into a nested mapping, creating
intermediate dicts as needed (the behaviour of the `unflatten` package on
the dot-paths this codebase produces). -/
def insertPath : List (String × NValue) → List String → Value → List (String × NValue)
  | m, [], _ => m
  | m, [k], v => setKey m k (.scalar v)
  | m, k :: k2 :: ks, v =>
    match getKey m k with
    | some (.obj fs) => setKey m k (.obj (insertPath fs (k2 :: ks) v))
    | _ => setKey m k (.obj (insertPath [] (k2 :: ks) v))

/-- `unflatten(flat)`: rebuild the nested mapping from the flat one. -/
def unflatten (flat : FlatMap) : List (String × NValue) :=
  flat.foldl (fun acc p => insertPath acc (splitKey p.1) p.2) []

/-! ## JSON serialization (`model_dump_json`)

`meta_identifier` hashes `meta.model_dump_json().encode("utf-8")`.  We
embed the JSON text production: fields in declaration order, no spaces,
`created_datetime` as the numeric timestamp. -/

/-- Decimal digits of a natural number. -/
def natDigits (n : Nat) : String := toString n

/-- Strip trailing zero characters (fractional-part normalization of the
float repr). -/
def stripTrailingZeros (cs : List Char) : List Char :=
  (cs.reverse.dropWhile (fun c => c = '0')).reverse

/-- Left-pad a digit list to six places. -/
def padSix (cs : List Char) : List Char :=
  List.replicate (6 - cs.length) '0' ++ cs

/-- The JSON text of `dt.timestamp()` for a datetime of `d` microseconds:
the shortest decimal form of the float, e.g. `946684800.0` or
`946684800.25`. -/
def jsonTimestamp (d : Datetime) : String :=
  let sign := if d < 0 then "-" else ""
  let a := d.natAbs
  let sec := a / 1000000
  let frac := a % 1000000
  if frac = 0 then sign ++ natDigits sec ++ ".0"
  else sign ++ natDigits sec ++ "." ++ String.mk (stripTrailingZeros (padSix (natDigits frac).data))

/-- Hexadecimal digit character. -/
def hexDigit (n : Nat) : Char :=
  if n < 10 then Char.ofNat (48 + n) else Char.ofNat (87 + n)

/-- Fixed-width big-endian hexadecimal digits of `n`. -/
def toHexPad : Nat → Nat → List Char
  | _, 0 => []
  | n, d + 1 => toHexPad (n / 16) d ++ [hexDigit (n % 16)]

/-- JSON string escaping of one character (serde-style: the two mandatory
escapes plus `\u00XX` for control characters; the short forms for the
common control characters). -/
def jsonEscapeChar (c : Char) : List Char :=
  if c = '"' then ['\\', '"']
  else if c = '\\' then ['\\', '\\']
  else if c = (Char.ofNat 8) then ['\\', 'b']
  else if c = (Char.ofNat 9) then ['\\', 't']
  else if c = (Char.ofNat 10) then ['\\', 'n']
  else if c = (Char.ofNat 12) then ['\\', 'f']
  else if c = (Char.ofNat 13) then ['\\', 'r']
  else if c.toNat < 32 then '\\' :: 'u' :: toHexPad c.toNat 4
  else [c]

/-- A JSON string literal. -/
def jsonString (s : String) : String :=
  "\"" ++ String.mk (s.data.flatMap jsonEscapeChar) ++ "\""

/-- JSON of an `Optional[str]` value. -/
def jsonOptString : Option String → String
  | none => "null"
  | some s => jsonString s

/-- `EntityMeta.model_dump_json()`. -/
def EntityMeta.dumpJson (m : EntityMeta) : String :=
  "\x7b\"created_datetime\":" ++ jsonTimestamp m.created_datetime ++
  ",\"type\":" ++ jsonString m.type ++
  ",\"name\":" ++ jsonOptString m.name ++
  ",\"id\":" ++ jsonString m.id ++ "\x7d"

/-- `SourceMeta.model_dump_json()`. -/
def SourceMeta.dumpJson (m : SourceMeta) : String :=
  "\x7b\"created_datetime\":" ++ jsonTimestamp m.created_datetime ++
  ",\"type\":" ++ jsonString m.type ++
  ",\"ref\":" ++ jsonOptString m.ref ++
  ",\"url\":" ++ jsonOptString m.url ++ "\x7d"

/-- `DataMeta.model_dump_json()`. -/
def DataMeta.dumpJson (m : DataMeta) : String :=
  "\x7b\"created_datetime\":" ++ jsonTimestamp m.created_datetime ++
  ",\"type\":" ++ jsonString m.type ++
  ",\"owner\":" ++ m.owner.dumpJson ++
  ",\"creator\":" ++ m.creator.dumpJson ++
  ",\"source\":" ++ m.source.dumpJson ++ "\x7d"

/-! ## UTF-8 encoding (`str.encode("utf-8")`) -/

/-- UTF-8 bytes of one character. -/
def utf8Char (c : Char) : List Nat :=
  let n := c.toNat
  if n < 128 then [n]
  else if n < 2048 then [192 + n / 64, 128 + n % 64]
  else if n < 65536 then [224 + n / 4096, 128 + (n / 64) % 64, 128 + n % 64]
  else [240 + n / 262144, 128 + (n / 4096) % 64, 128 + (n / 64) % 64, 128 + n % 64]

/-- UTF-8 bytes of a string. -/
def utf8Encode (s : String) : List Nat := s.data.flatMap utf8Char

/-! ## `hashlib.sha256` and `hashlib.sha1`

Both hash functions operate on byte lists; 32-bit words are `Nat` with
explicit reduction modulo `2 ^ 32`. -/

/-- Truncate to a 32-bit word. -/
def u32 (n : Nat) : Nat := n % 4294967296

/-- Right rotation of a 32-bit word. -/
def rotr (n x : Nat) : Nat := u32 ((x >>> n) ||| (x <<< (32 - n)))

/-- Left rotation of a 32-bit word. -/
def rotl (n x : Nat) : Nat := u32 ((x <<< n) ||| (x >>> (32 - n)))

/-- Bitwise complement of a 32-bit word. -/
def compl32 (x : Nat) : Nat := x ^^^ 4294967295

/-- Big-endian assembly of 32-bit words from bytes. -/
def bytesToWords : List Nat → List Nat
  | b0 :: b1 :: b2 :: b3 :: rest =>
    (((b0 * 256 + b1) * 256 + b2) * 256 + b3) :: bytesToWords rest
  | _ => []

/-- `k` big-endian bytes of `n`. -/
def natToBytes : Nat → Nat → List Nat
  | 0, _ => []
  | k + 1, n => natToBytes k (n >>> 8) ++ [n % 256]

/-- Merkle–Damgård padding shared by SHA-1 and SHA-256: append `0x80`,
zero-pad to 56 mod 64, append the 64-bit big-endian bit length. -/
def shaPad (msg : List Nat) : List Nat :=
  let zeros := (119 - msg.length % 64) % 64
  msg ++ [128] ++ List.replicate zeros 0 ++ natToBytes 8 (msg.length * 8)

/-- Split the padded message into 64-byte blocks (`fuel`-driven structural
recursion; the fuel is an upper bound on the number of blocks). -/
def chunksOf64 : Nat → List Nat → List (List Nat)
  | 0, _ => []
  | _ + 1, [] => []
  | fuel + 1, l => l.take 64 :: chunksOf64 fuel (l.drop 64)

/-- SHA-256 working state. -/
structure SHA256State where
  a : Nat
  b : Nat
  c : Nat
  d : Nat
  e : Nat
  f : Nat
  g : Nat
  h : Nat

/-- SHA-256 round constants (FIPS 180-4, here written in decimal). -/
def sha256K : List Nat :=
  [1116352408, 1899447441, 3049323471, 3921009573, 961987163, 1508970993,
   2453635748, 2870763221, 3624381080, 310598401, 607225278, 1426881987,
   1925078388, 2162078206, 2614888103, 3248222580, 3835390401, 4022224774,
   264347078, 604807628, 770255983, 1249150122, 1555081692, 1996064986,
   2554220882, 2821834349, 2952996808, 3210313671, 3336571891, 3584528711,
   113926993, 338241895, 666307205, 773529912, 1294757372, 1396182291,
   1695183700, 1986661051, 2177026350, 2456956037, 2730485921, 2820302411,
   3259730800, 3345764771, 3516065817, 3600352804, 4094571909, 275423344,
   430227734, 506948616, 659060556, 883997877, 958139571, 1322822218,
   1537002063, 1747873779, 1955562222, 2024104815, 2227730452, 2361852424,
   2428436474, 2756734187, 3204031479, 3329325298]

/-- Extend the 16-word schedule to 64 words (`n` words still to add). -/
def sha256Extend : Nat → List Nat → List Nat
  | 0, w => w
  | n + 1, w =>
    let i := w.length
    let x15 := w.getD (i - 15) 0
    let x2 := w.getD (i - 2) 0
    let s0 := (rotr 7 x15) ^^^ (rotr 18 x15) ^^^ (x15 >>> 3)
    let s1 := (rotr 17 x2) ^^^ (rotr 19 x2) ^^^ (x2 >>> 10)
    sha256Extend n (w ++ [u32 (w.getD (i - 16) 0 + s0 + w.getD (i - 7) 0 + s1)])

/-- One SHA-256 compression round. -/
def sha256Round (st : SHA256State) (kw : Nat × Nat) : SHA256State :=
  let s1 := (rotr 6 st.e) ^^^ (rotr 11 st.e) ^^^ (rotr 25 st.e)
  let ch := (st.e &&& st.f) ^^^ ((compl32 st.e) &&& st.g)
  let temp1 := u32 (st.h + s1 + ch + kw.1 + kw.2)
  let s0 := (rotr 2 st.a) ^^^ (rotr 13 st.a) ^^^ (rotr 22 st.a)
  let maj := (st.a &&& st.b) ^^^ (st.a &&& st.c) ^^^ (st.b &&& st.c)
  let temp2 := u32 (s0 + maj)
  ⟨u32 (temp1 + temp2), st.a, st.b, st.c, u32 (st.d + temp1), st.e, st.f, st.g⟩

/-- Compress one 64-byte block into the state. -/
def sha256Compress (st : SHA256State) (block : List Nat) : SHA256State :=
  let w := sha256Extend 48 (bytesToWords block)
  let r := (sha256K.zip w).foldl sha256Round st
  ⟨u32 (st.a + r.a), u32 (st.b + r.b), u32 (st.c + r.c), u32 (st.d + r.d),
   u32 (st.e + r.e), u32 (st.f + r.f), u32 (st.g + r.g), u32 (st.h + r.h)⟩

/-- SHA-256 initial state. -/
def sha256Init : SHA256State :=
  ⟨1779033703, 3144134277, 1013904242, 2773480762, 1359893119, 2600822924, 528734635, 1541459225⟩

/-- The eight 32-bit words of the SHA-256 digest of a byte message. -/
def sha256Words (msg : List Nat) : List Nat :=
  let padded := shaPad msg
  let st := (chunksOf64 (padded.length) padded).foldl sha256Compress sha256Init
  [st.a, st.b, st.c, st.d, st.e, st.f, st.g, st.h]

/-- `hashlib.sha256(msg).hexdigest()`. -/
def sha256Hex (msg : List Nat) : String :=
  String.mk ((sha256Words msg).flatMap (fun w => toHexPad w 8))

/-- SHA-1 working state. -/
structure SHA1State where
  a : Nat
  b : Nat
  c : Nat
  d : Nat
  e : Nat

/-- Extend the 16-word SHA-1 schedule to 80 words. -/
def sha1Extend : Nat → List Nat → List Nat
  | 0, w => w
  | n + 1, w =>
    let i := w.length
    let x := (w.getD (i - 3) 0) ^^^ (w.getD (i - 8) 0) ^^^ (w.getD (i - 14) 0) ^^^ (w.getD (i - 16) 0)
    sha1Extend n (w ++ [rotl 1 x])

/-- One SHA-1 round; the pair carries the round index and schedule word. -/
def sha1Round (st : SHA1State) (iw : Nat × Nat) : SHA1State :=
  let fk : Nat × Nat :=
    if iw.1 < 20 then ((st.b &&& st.c) ||| ((compl32 st.b) &&& st.d), 1518500249)
    else if iw.1 < 40 then (st.b ^^^ st.c ^^^ st.d, 1859775393)
    else if iw.1 < 60 then ((st.b &&& st.c) ||| (st.b &&& st.d) ||| (st.c &&& st.d), 2400959708)
    else (st.b ^^^ st.c ^^^ st.d, 3395469782)
  let temp := u32 (rotl 5 st.a + fk.1 + st.e + fk.2 + iw.2)
  ⟨temp, st.a, rotl 30 st.b, st.c, st.d⟩

/-- Compress one 64-byte block into the SHA-1 state. -/
def sha1Compress (st : SHA1State) (block : List Nat) : SHA1State :=
  let w := sha1Extend 64 (bytesToWords block)
  let r := ((List.range 80).zip w).foldl sha1Round st
  ⟨u32 (st.a + r.a), u32 (st.b + r.b), u32 (st.c + r.c), u32 (st.d + r.d), u32 (st.e + r.e)⟩

/-- SHA-1 initial state. -/
def sha1Init : SHA1State := ⟨1732584193, 4023233417, 2562383102, 271733878, 3285377520⟩

/-- The five 32-bit words of the SHA-1 digest of a byte message. -/
def sha1Words (msg : List Nat) : List Nat :=
  let padded := shaPad msg
  let st := (chunksOf64 (padded.length) padded).foldl sha1Compress sha1Init
  [st.a, st.b, st.c, st.d, st.e]

/-- `hashlib.sha1(msg).hexdigest()`. -/
def sha1Hex (msg : List Nat) : String :=
  String.mk ((sha1Words msg).flatMap (fun w => toHexPad w 8))

/-- `meta_identifier` of `db.py`: hash the canonical JSON byte encoding
with SHA-256 and SHA-1 and join the hex digests with a colon,
`f"{meta_code}:{meta_subcode}"`. -/
def meta_identifier (meta : DataMeta) : String :=
  let meta_encoded := utf8Encode meta.dumpJson
  let meta_code := sha256Hex meta_encoded
  let meta_subcode := sha1Hex meta_encoded
  meta_code ++ ":" ++ meta_subcode

/-! ## The engine (chromadb client) and the `VectorDatabase` facade

The engine is the external collaborator.  A collection is a name plus an
opaque query function (the engine's ranking is out of scope); the facade's
calls into the engine are recorded in an explicit trace so that
"no engine mutation call is attempted" is a statement about the trace. -/

/-- The engine's query response: `{documents: [...], metadatas: [...]}`,
each a list of result groups. -/
structure QueryResponse where
  documents : List (List String)
  metadatas : List (List FlatMap)

/-- One engine collection: its name and its (opaque) query behaviour. -/
structure Collection where
  name : String
  queryFn : String → Nat → QueryResponse

/-- The engine: the list of existing collections. -/
structure Engine where
  collections : List Collection

/-- A call made into the engine API. -/
inductive EngineCall where
  | list_collections
  | get_collection (name : String)
  | query (collection : String) (query_texts : String) (n_results : Nat)
  | add (collection : String) (documents : List String)
      (metadatas : List FlatMap) (ids : List String)
deriving DecidableEq

/-- Errors surfaced by facade operations.  `valueError` is the
`ValueError` raised by `search`/`add` on a missing collection;
`indexError` models `[0]` on an empty result list; `validationError`
models a pydantic `ValidationError` escaping from reconstruction;
`backendError` models an exception raised by the engine itself. -/
inductive DBError where
  | valueError (msg : String)
  | indexError
  | validationError (msg : String)
  | backendError (msg : String)
deriving Repr, DecidableEq

/-- `VectorDatabase.has_collection`:
`name in set(v.name for v in self.api.list_collections())`. -/
def VectorDatabase.has_collection (e : Engine) (name : String) : Bool :=
  (e.collections.map (fun c => c.name)).contains name

/-- `self.api.get_collection(name)`: the engine returns the collection
with the given name. -/
def getCollection (e : Engine) (name : String) : Option Collection :=
  e.collections.find? (fun c => c.name = name)

/-- Fail-fast element-wise evaluation of a Python list comprehension whose
body may raise: the first exception aborts the whole comprehension. -/
def mapEx (f : α → Except ε β) : List α → Except ε (List β)
  | [] => .ok []
  | a :: as =>
    match f a with
    | .error err => .error err
    | .ok b =>
      match mapEx f as with
      | .error err => .error err
      | .ok bs => .ok (b :: bs)

/-- The body of the list comprehension in `VectorDatabase.search`:
`Data(meta=DataMeta.model_validate(unflatten(metadata)), content=content)`. -/
def reconstructPair (p : FlatMap × String) : Except String Data :=
  match DataMeta.validate (unflatten p.1) with
  | .error err => .error err
  | .ok dm => .ok { meta := dm, content := p.2 }

/-- `VectorDatabase.search(collection_name, descriptions, limit)`.  Returns
the result (or the raised error) together with the trace of engine calls. -/
def VectorDatabase.search (e : Engine) (collection_name descriptions : String)
    (limit : Nat) : Except DBError (List Data) × List EngineCall :=
  if VectorDatabase.has_collection e collection_name then
    match getCollection e collection_name with
    | none =>
      (.error (.backendError "collection disappeared"),
       [.list_collections, .get_collection collection_name])
    | some collection =>
      let calls := [EngineCall.list_collections, .get_collection collection_name,
        .query collection_name descriptions limit]
      let results := collection.queryFn descriptions limit
      match results.metadatas with
      | [] => (.error .indexError, calls)
      | metadatas :: _ =>
        match results.documents with
        | [] => (.error .indexError, calls)
        | contents :: _ =>
          match mapEx reconstructPair (metadatas.zip contents) with
          | .error err => (.error (.validationError err), calls)
          | .ok l => (.ok l, calls)
  else
    (.error (.valueError ("Collection " ++ collection_name ++ " does not exist.")),
     [.list_collections])

/-- A Python iterable of `Data`: either a re-iterable sequence (list) or a
single-use iterator over the given elements. -/
inductive PyIterable where
  | pyList (l : List Data)
  | pyIter (l : List Data)
deriving DecidableEq

/-- One full traversal of an iterable (a list comprehension over it):
yields the remaining elements, and the iterable's state afterwards — a
list is unchanged, an iterator is exhausted. -/
def iterateAll : PyIterable → List Data × PyIterable
  | .pyList l => (l, .pyList l)
  | .pyIter l => (l, .pyIter [])

/-- `VectorDatabase.add(collection_name, items)`: the three list
comprehensions traverse `items` in order (documents, then metadatas, then
ids), then a single engine `collection.add` call is issued. -/
def VectorDatabase.add (e : Engine) (collection_name : String) (items : PyIterable) :
    Except DBError Unit × List EngineCall :=
  if VectorDatabase.has_collection e collection_name then
    match getCollection e collection_name with
    | none =>
      (.error (.backendError "collection disappeared"),
       [.list_collections, .get_collection collection_name])
    | some _ =>
      let (l1, s1) := iterateAll items
      let documents := l1.map (fun v => v.content)
      let (l2, s2) := iterateAll s1
      let metadatas := l2.map (fun v => flatDict (DataMeta.dump v.meta))
      let (l3, _) := iterateAll s2
      let ids := l3.map (fun v => meta_identifier v.meta)
      (.ok (), [.list_collections, .get_collection collection_name,
        .add collection_name documents metadatas ids])
  else
    (.error (.valueError ("Collection " ++ collection_name ++ " does not exist.")),
     [.list_collections])

/-! ## Concrete sample objects used to exercise the facade -/

deriving instance DecidableEq for Except

/-- A sample creator entity. -/
def sampleCreator : EntityMeta :=
  { created_datetime := 946684800000000, type := "agent", name := some "assistant", id := "a1" }

/-- A sample source. -/
def sampleSource : SourceMeta :=
  { created_datetime := 946684800000000, type := "user", ref := some "", url := some "" }

/-- A sample metadata record. -/
def sampleMeta : DataMeta :=
  { created_datetime := 946684800000000, type := "content",
    owner := NULL_ENTITY, creator := sampleCreator, source := sampleSource }

/-- A second, independently constructed metadata record whose field values
coincide with `sampleMeta`. -/
def sampleMetaTwin : DataMeta :=
  { created_datetime := 946684800000000, type := "content",
    owner := { created_datetime := 946684800000000, type := "undef", name := some "null", id := "" },
    creator := { created_datetime := 946684800000000, type := "agent", name := some "assistant", id := "a1" },
    source := { created_datetime := 946684800000000, type := "user", ref := some "", url := some "" } }

/-- A sample stored unit. -/
def sampleData : Data := { meta := sampleMeta, content := "hello world" }

/-- The flat metadata the engine hands back for `sampleData`. -/
def sampleFlat : FlatMap := flatDict (DataMeta.dump sampleMeta)

/-- A sample collection named `notes` whose query always returns one
result group holding `sampleData`. -/
def sampleCollection : Collection :=
  { name := "notes",
    queryFn := fun _ _ => { documents := [["hello world"]], metadatas := [[sampleFlat]] } }

/-- An engine holding just the `notes` collection. -/
def sampleEngine : Engine := { collections := [sampleCollection] }

/-- An engine with no collections at all. -/
def emptyEngine : Engine := { collections := [] }

/-- The nested mapping for an `EntityMeta` whose `type` is the free-text
value `robot`, outside the documented `enum` set. -/
def robotInput : List (String × NValue) :=
  [("created_datetime", .scalar (.vNum 946684800)),
   ("type", .scalar (.vStr "robot")),
   ("id", .scalar (.vStr "r1"))]

/-! # Theorems

Helper lemmas first, then one theorem per specification claim. -/

/-- Round trip through the timestamp codec: serializing a datetime to its
epoch-seconds value and reading it back reproduces the datetime exactly. -/
theorem dtFromTimestamp_dtTimestamp (d : Datetime) : dtFromTimestamp (dtTimestamp d) = d := by
  have hden0 : ((dtTimestamp d).den : ℚ) ≠ 0 := by
    exact_mod_cast (dtTimestamp d).den_nz
  have hdenpos : (0 : ℤ) < ((dtTimestamp d).den : ℤ) := by
    exact_mod_cast Nat.pos_of_ne_zero (dtTimestamp d).den_nz
  have key : (dtTimestamp d).num * 1000000 = d * ((dtTimestamp d).den : ℤ) := by
    have h0 : ((dtTimestamp d).num : ℚ) / ((dtTimestamp d).den : ℚ) = (d : ℚ) / 1000000 := by
      rw [Rat.num_div_den]
      unfold dtTimestamp
      rw [Rat.divInt_eq_div]
      norm_num
    rw [div_eq_div_iff hden0 (by norm_num : (1000000 : ℚ) ≠ 0)] at h0
    exact_mod_cast h0
  have hnum : (dtTimestamp d).num * 2000000 + ((dtTimestamp d).den : ℤ) =
      ((dtTimestamp d).den : ℤ) * (2 * d + 1) := by
    have h2 : (dtTimestamp d).num * 2000000 = 2 * ((dtTimestamp d).num * 1000000) := by ring
    rw [h2, key]
    ring
  unfold dtFromTimestamp
  rw [hnum, Int.mul_ediv_mul_of_pos _ _ hdenpos]
  have h3 : 2 * d + 1 = 1 + d * 2 := by ring
  rw [h3, Int.add_mul_ediv_right _ _ (by norm_num : (2 : ℤ) ≠ 0)]
  norm_num
/-! Call-by-value evaluation of `unflatten` on the key set produced by
`DataMeta.dump`, one insertion step at a time (step lemmas keep the
accumulator in normal form, which keeps elaboration linear). -/

/-- Insertion step 1 of unflattening a dumped record. -/
theorem insStep1 (v1 : Value) :
    insertPath [] ["created_datetime"] v1 =
    [("created_datetime", NValue.scalar v1)] := rfl

/-- Insertion step 2 of unflattening a dumped record. -/
theorem insStep2 (v1 v2 : Value) :
    insertPath [("created_datetime", NValue.scalar v1)] ["type"] v2 =
    [("created_datetime", NValue.scalar v1),
      ("type", NValue.scalar v2)] := rfl

/-- Insertion step 3 of unflattening a dumped record. -/
theorem insStep3 (v1 v2 v3 : Value) :
    insertPath [("created_datetime", NValue.scalar v1),
      ("type", NValue.scalar v2)] ["owner", "created_datetime"] v3 =
    [("created_datetime", NValue.scalar v1),
      ("type", NValue.scalar v2),
      ("owner", NValue.obj [("created_datetime", NValue.scalar v3)])] := rfl

/-- Insertion step 4 of unflattening a dumped record. -/
theorem insStep4 (v1 v2 v3 v4 : Value) :
    insertPath [("created_datetime", NValue.scalar v1),
      ("type", NValue.scalar v2),
      ("owner", NValue.obj [("created_datetime", NValue.scalar v3)])] ["owner", "type"] v4 =
    [("created_datetime", NValue.scalar v1),
      ("type", NValue.scalar v2),
      ("owner", NValue.obj [("created_datetime", NValue.scalar v3), ("type", NValue.scalar v4)])] := rfl

/-- Insertion step 5 of unflattening a dumped record. -/
theorem insStep5 (v1 v2 v3 v4 v5 : Value) :
    insertPath [("created_datetime", NValue.scalar v1),
      ("type", NValue.scalar v2),
      ("owner", NValue.obj [("created_datetime", NValue.scalar v3), ("type", NValue.scalar v4)])] ["owner", "name"] v5 =
    [("created_datetime", NValue.scalar v1),
      ("type", NValue.scalar v2),
      ("owner", NValue.obj [("created_datetime", NValue.scalar v3), ("type", NValue.scalar v4), ("name", NValue.scalar v5)])] := rfl

/-- Insertion step 6 of unflattening a dumped record. -/
theorem insStep6 (v1 v2 v3 v4 v5 v6 : Value) :
    insertPath [("created_datetime", NValue.scalar v1),
      ("type", NValue.scalar v2),
      ("owner", NValue.obj [("created_datetime", NValue.scalar v3), ("type", NValue.scalar v4), ("name", NValue.scalar v5)])] ["owner", "id"] v6 =
    [("created_datetime", NValue.scalar v1),
      ("type", NValue.scalar v2),
      ("owner", NValue.obj [("created_datetime", NValue.scalar v3), ("type", NValue.scalar v4), ("name", NValue.scalar v5), ("id", NValue.scalar v6)])] := rfl

/-- Insertion step 7 of unflattening a dumped record. -/
theorem insStep7 (v1 v2 v3 v4 v5 v6 v7 : Value) :
    insertPath [("created_datetime", NValue.scalar v1),
      ("type", NValue.scalar v2),
      ("owner", NValue.obj [("created_datetime", NValue.scalar v3), ("type", NValue.scalar v4), ("name", NValue.scalar v5), ("id", NValue.scalar v6)])] ["creator", "created_datetime"] v7 =
    [("created_datetime", NValue.scalar v1),
      ("type", NValue.scalar v2),
      ("owner", NValue.obj [("created_datetime", NValue.scalar v3), ("type", NValue.scalar v4), ("name", NValue.scalar v5), ("id", NValue.scalar v6)]),
      ("creator", NValue.obj [("created_datetime", NValue.scalar v7)])] := rfl

/-- Insertion step 8 of unflattening a dumped record. -/
theorem insStep8 (v1 v2 v3 v4 v5 v6 v7 v8 : Value) :
    insertPath [("created_datetime", NValue.scalar v1),
      ("type", NValue.scalar v2),
      ("owner", NValue.obj [("created_datetime", NValue.scalar v3), ("type", NValue.scalar v4), ("name", NValue.scalar v5), ("id", NValue.scalar v6)]),
      ("creator", NValue.obj [("created_datetime", NValue.scalar v7)])] ["creator", "type"] v8 =
    [("created_datetime", NValue.scalar v1),
      ("type", NValue.scalar v2),
      ("owner", NValue.obj [("created_datetime", NValue.scalar v3), ("type", NValue.scalar v4), ("name", NValue.scalar v5), ("id", NValue.scalar v6)]),
      ("creator", NValue.obj [("created_datetime", NValue.scalar v7), ("type", NValue.scalar v8)])] := rfl

/-- Insertion step 9 of unflattening a dumped record. -/
theorem insStep9 (v1 v2 v3 v4 v5 v6 v7 v8 v9 : Value) :
    insertPath [("created_datetime", NValue.scalar v1),
      ("type", NValue.scalar v2),
      ("owner", NValue.obj [("created_datetime", NValue.scalar v3), ("type", NValue.scalar v4), ("name", NValue.scalar v5), ("id", NValue.scalar v6)]),
      ("creator", NValue.obj [("created_datetime", NValue.scalar v7), ("type", NValue.scalar v8)])] ["creator", "name"] v9 =
    [("created_datetime", NValue.scalar v1),
      ("type", NValue.scalar v2),
      ("owner", NValue.obj [("created_datetime", NValue.scalar v3), ("type", NValue.scalar v4), ("name", NValue.scalar v5), ("id", NValue.scalar v6)]),
      ("creator", NValue.obj [("created_datetime", NValue.scalar v7), ("type", NValue.scalar v8), ("name", NValue.scalar v9)])] := rfl

/-- Insertion step 10 of unflattening a dumped record. -/
theorem insStep10 (v1 v2 v3 v4 v5 v6 v7 v8 v9 v10 : Value) :
    insertPath [("created_datetime", NValue.scalar v1),
      ("type", NValue.scalar v2),
      ("owner", NValue.obj [("created_datetime", NValue.scalar v3), ("type", NValue.scalar v4), ("name", NValue.scalar v5), ("id", NValue.scalar v6)]),
      ("creator", NValue.obj [("created_datetime", NValue.scalar v7), ("type", NValue.scalar v8), ("name", NValue.scalar v9)])] ["creator", "id"] v10 =
    [("created_datetime", NValue.scalar v1),
      ("type", NValue.scalar v2),
      ("owner", NValue.obj [("created_datetime", NValue.scalar v3), ("type", NValue.scalar v4), ("name", NValue.scalar v5), ("id", NValue.scalar v6)]),
      ("creator", NValue.obj [("created_datetime", NValue.scalar v7), ("type", NValue.scalar v8), ("name", NValue.scalar v9), ("id", NValue.scalar v10)])] := rfl

/-- Insertion step 11 of unflattening a dumped record. -/
theorem insStep11 (v1 v2 v3 v4 v5 v6 v7 v8 v9 v10 v11 : Value) :
    insertPath [("created_datetime", NValue.scalar v1),
      ("type", NValue.scalar v2),
      ("owner", NValue.obj [("created_datetime", NValue.scalar v3), ("type", NValue.scalar v4), ("name", NValue.scalar v5), ("id", NValue.scalar v6)]),
      ("creator", NValue.obj [("created_datetime", NValue.scalar v7), ("type", NValue.scalar v8), ("name", NValue.scalar v9), ("id", NValue.scalar v10)])] ["source", "created_datetime"] v11 =
    [("created_datetime", NValue.scalar v1),
      ("type", NValue.scalar v2),
      ("owner", NValue.obj [("created_datetime", NValue.scalar v3), ("type", NValue.scalar v4), ("name", NValue.scalar v5), ("id", NValue.scalar v6)]),
      ("creator", NValue.obj [("created_datetime", NValue.scalar v7), ("type", NValue.scalar v8), ("name", NValue.scalar v9), ("id", NValue.scalar v10)]),
      ("source", NValue.obj [("created_datetime", NValue.scalar v11)])] := rfl

/-- Insertion step 12 of unflattening a dumped record. -/
theorem insStep12 (v1 v2 v3 v4 v5 v6 v7 v8 v9 v10 v11 v12 : Value) :
    insertPath [("created_datetime", NValue.scalar v1),
      ("type", NValue.scalar v2),
      ("owner", NValue.obj [("created_datetime", NValue.scalar v3), ("type", NValue.scalar v4), ("name", NValue.scalar v5), ("id", NValue.scalar v6)]),
      ("creator", NValue.obj [("created_datetime", NValue.scalar v7), ("type", NValue.scalar v8), ("name", NValue.scalar v9), ("id", NValue.scalar v10)]),
      ("source", NValue.obj [("created_datetime", NValue.scalar v11)])] ["source", "type"] v12 =
    [("created_datetime", NValue.scalar v1),
      ("type", NValue.scalar v2),
      ("owner", NValue.obj [("created_datetime", NValue.scalar v3), ("type", NValue.scalar v4), ("name", NValue.scalar v5), ("id", NValue.scalar v6)]),
      ("creator", NValue.obj [("created_datetime", NValue.scalar v7), ("type", NValue.scalar v8), ("name", NValue.scalar v9), ("id", NValue.scalar v10)]),
      ("source", NValue.obj [("created_datetime", NValue.scalar v11), ("type", NValue.scalar v12)])] := rfl

/-- Insertion step 13 of unflattening a dumped record. -/
theorem insStep13 (v1 v2 v3 v4 v5 v6 v7 v8 v9 v10 v11 v12 v13 : Value) :
    insertPath [("created_datetime", NValue.scalar v1),
      ("type", NValue.scalar v2),
      ("owner", NValue.obj [("created_datetime", NValue.scalar v3), ("type", NValue.scalar v4), ("name", NValue.scalar v5), ("id", NValue.scalar v6)]),
      ("creator", NValue.obj [("created_datetime", NValue.scalar v7), ("type", NValue.scalar v8), ("name", NValue.scalar v9), ("id", NValue.scalar v10)]),
      ("source", NValue.obj [("created_datetime", NValue.scalar v11), ("type", NValue.scalar v12)])] ["source", "ref"] v13 =
    [("created_datetime", NValue.scalar v1),
      ("type", NValue.scalar v2),
      ("owner", NValue.obj [("created_datetime", NValue.scalar v3), ("type", NValue.scalar v4), ("name", NValue.scalar v5), ("id", NValue.scalar v6)]),
      ("creator", NValue.obj [("created_datetime", NValue.scalar v7), ("type", NValue.scalar v8), ("name", NValue.scalar v9), ("id", NValue.scalar v10)]),
      ("source", NValue.obj [("created_datetime", NValue.scalar v11), ("type", NValue.scalar v12), ("ref", NValue.scalar v13)])] := rfl

/-- Insertion step 14 of unflattening a dumped record. -/
theorem insStep14 (v1 v2 v3 v4 v5 v6 v7 v8 v9 v10 v11 v12 v13 v14 : Value) :
    insertPath [("created_datetime", NValue.scalar v1),
      ("type", NValue.scalar v2),
      ("owner", NValue.obj [("created_datetime", NValue.scalar v3), ("type", NValue.scalar v4), ("name", NValue.scalar v5), ("id", NValue.scalar v6)]),
      ("creator", NValue.obj [("created_datetime", NValue.scalar v7), ("type", NValue.scalar v8), ("name", NValue.scalar v9), ("id", NValue.scalar v10)]),
      ("source", NValue.obj [("created_datetime", NValue.scalar v11), ("type", NValue.scalar v12), ("ref", NValue.scalar v13)])] ["source", "url"] v14 =
    [("created_datetime", NValue.scalar v1),
      ("type", NValue.scalar v2),
      ("owner", NValue.obj [("created_datetime", NValue.scalar v3), ("type", NValue.scalar v4), ("name", NValue.scalar v5), ("id", NValue.scalar v6)]),
      ("creator", NValue.obj [("created_datetime", NValue.scalar v7), ("type", NValue.scalar v8), ("name", NValue.scalar v9), ("id", NValue.scalar v10)]),
      ("source", NValue.obj [("created_datetime", NValue.scalar v11), ("type", NValue.scalar v12), ("ref", NValue.scalar v13), ("url", NValue.scalar v14)])] := rfl

/-- Splitting each flat key produced by flattening a `DataMeta` dump. -/
theorem splitKey_eval :
    splitKey "created_datetime" = ["created_datetime"] ∧
    splitKey "type" = ["type"] ∧
    splitKey "owner.created_datetime" = ["owner", "created_datetime"] ∧
    splitKey "owner.type" = ["owner", "type"] ∧
    splitKey "owner.name" = ["owner", "name"] ∧
    splitKey "owner.id" = ["owner", "id"] ∧
    splitKey "creator.created_datetime" = ["creator", "created_datetime"] ∧
    splitKey "creator.type" = ["creator", "type"] ∧
    splitKey "creator.name" = ["creator", "name"] ∧
    splitKey "creator.id" = ["creator", "id"] ∧
    splitKey "source.created_datetime" = ["source", "created_datetime"] ∧
    splitKey "source.type" = ["source", "type"] ∧
    splitKey "source.ref" = ["source", "ref"] ∧
    splitKey "source.url" = ["source", "url"] := by
  decide

/-- `unflatten` rebuilds the nested mapping from the flat key set that
flattening a `DataMeta` dump produces. -/
theorem unflatten_dataMeta_keys (v1 v2 v3 v4 v5 v6 v7 v8 v9 v10 v11 v12 v13 v14 : Value) :
    unflatten [("created_datetime", v1),
      ("type", v2),
      ("owner.created_datetime", v3),
      ("owner.type", v4),
      ("owner.name", v5),
      ("owner.id", v6),
      ("creator.created_datetime", v7),
      ("creator.type", v8),
      ("creator.name", v9),
      ("creator.id", v10),
      ("source.created_datetime", v11),
      ("source.type", v12),
      ("source.ref", v13),
      ("source.url", v14)] =
    [("created_datetime", NValue.scalar v1),
      ("type", NValue.scalar v2),
      ("owner", NValue.obj [("created_datetime", NValue.scalar v3), ("type", NValue.scalar v4), ("name", NValue.scalar v5), ("id", NValue.scalar v6)]),
      ("creator", NValue.obj [("created_datetime", NValue.scalar v7), ("type", NValue.scalar v8), ("name", NValue.scalar v9), ("id", NValue.scalar v10)]),
      ("source", NValue.obj [("created_datetime", NValue.scalar v11), ("type", NValue.scalar v12), ("ref", NValue.scalar v13), ("url", NValue.scalar v14)])] := by
  simp only [unflatten, List.foldl, splitKey_eval, insStep1, insStep2, insStep3, insStep4,
    insStep5, insStep6, insStep7, insStep8, insStep9, insStep10, insStep11, insStep12,
    insStep13, insStep14]


/-- A fail-fast comprehension that returns `ok` maps each element to the
`ok` of the corresponding result, in order. -/
theorem mapEx_ok_map (f : α → Except ε β) (xs : List α) (l : List β)
    (h : mapEx f xs = .ok l) : xs.map f = l.map Except.ok := by
  induction xs generalizing l with
  | nil =>
    simp [mapEx] at h
    subst h
    simp
  | cons a as ih =>
    simp only [mapEx] at h
    cases hfa : f a with
    | error err => rw [hfa] at h; exact absurd h (by simp)
    | ok b =>
      rw [hfa] at h
      cases hrest : mapEx f as with
      | error err => rw [hrest] at h; exact absurd h (by simp)
      | ok bs =>
        rw [hrest] at h
        obtain rfl : b :: bs = l := by simpa using h
        simp [hfa, ih bs hrest]

/-- If a collection name passes the existence check then the engine
resolves it to some collection. -/
theorem getCollection_of_has (e : Engine) (n : String)
    (h : VectorDatabase.has_collection e n = true) :
    ∃ c, getCollection e n = some c := by
  unfold VectorDatabase.has_collection at h
  have h' : ∃ a ∈ e.collections, a.name = n := by simpa using h
  obtain ⟨a, hmem, hname⟩ := h'
  have hsome : (e.collections.find? (fun c => decide (c.name = n))).isSome := by
    apply List.find?_isSome.mpr
    exact ⟨a, hmem, by simp [hname]⟩
  unfold getCollection
  exact Option.isSome_iff_exists.mp hsome

/-- Fixed-width hex rendering has exactly the requested width. -/
theorem toHexPad_length (n d : Nat) : (toHexPad n d).length = d := by
  induction d generalizing n with
  | zero => rfl
  | succ k ih => simp [toHexPad, ih]

/-- Claim C1: for every valid `DataMeta` record `m`, reconstructing the
flat mapping produced by flattening `m` (splitting the dot-delimited key
paths back into a nested mapping and validating it as a `DataMeta`) yields
a record structurally equal to `m`. -/
theorem flatten_reconstruct_roundtrip (m : DataMeta) :
    DataMeta.validate (unflatten (flatDict (DataMeta.dump m))) = .ok m := by
  obtain ⟨dt, ty, ⟨odt, oty, onm, oid⟩, ⟨cdt, cty, cnm, cid⟩, ⟨sdt, sty, srf, sur⟩⟩ := m
  have hflat : flatDict (DataMeta.dump
      ⟨dt, ty, ⟨odt, oty, onm, oid⟩, ⟨cdt, cty, cnm, cid⟩, ⟨sdt, sty, srf, sur⟩⟩) =
      [("created_datetime", serialize_dt dt), ("type", .vStr ty),
       ("owner.created_datetime", serialize_dt odt), ("owner.type", .vStr oty),
       ("owner.name", optStrVal onm), ("owner.id", .vStr oid),
       ("creator.created_datetime", serialize_dt cdt), ("creator.type", .vStr cty),
       ("creator.name", optStrVal cnm), ("creator.id", .vStr cid),
       ("source.created_datetime", serialize_dt sdt), ("source.type", .vStr sty),
       ("source.ref", optStrVal srf), ("source.url", optStrVal sur)] := rfl
  rw [hflat, unflatten_dataMeta_keys]
  cases onm <;> cases cnm <;> cases srf <;> cases sur <;>
    simp [DataMeta.validate, EntityMeta.validate, SourceMeta.validate, validateDtField,
      validateStrField, validateOptStrField, validateObjField, validate_dt, serialize_dt,
      optStrVal, getKey, dtFromTimestamp_dtTimestamp, Bind.bind, Except.bind]

/-- Claim C2 (the code refutes this): pydantic's `enum=` keyword argument
to `Field` is json-schema metadata only, so validating an `EntityMeta`
whose `type` is the out-of-enum string `robot` succeeds instead of raising
a `ValidationError`. -/
theorem entityMeta_validate_accepts_robot :
    EntityMeta.validate robotInput =
      .ok { created_datetime := 946684800000000, type := "robot",
            name := some "", id := "r1" } := by
  decide

/-- Claim C6: serializing `created_datetime` emits a numeric epoch
timestamp; deserialization accepts either that numeric form or an already
structured datetime and normalizes both to the same in-memory datetime;
the round trip is exactly lossless (hence lossless to second precision). -/
theorem created_datetime_codec (d : Datetime) :
    (∃ q, serialize_dt d = Value.vNum q) ∧
    validate_dt (serialize_dt d) = .ok d ∧
    validate_dt (Value.vDt d) = .ok d :=
  ⟨⟨dtTimestamp d, rfl⟩,
   by simp [serialize_dt, validate_dt, dtFromTimestamp_dtTimestamp],
   rfl⟩

/-- Claim C7: the flat mapping of any `DataMeta` carries a key for every
leaf scalar field of the record and of each nested record — whatever the
field values, in particular when optional fields hold their empty-string
defaults. -/
theorem flatten_has_all_leaf_keys (m : DataMeta) :
    (flatDict (DataMeta.dump m)).map Prod.fst =
      ["created_datetime", "type",
       "owner.created_datetime", "owner.type", "owner.name", "owner.id",
       "creator.created_datetime", "creator.type", "creator.name", "creator.id",
       "source.created_datetime", "source.type", "source.ref", "source.url"] := rfl

/-- A SHA-256 hex digest is 64 hex characters. -/
theorem sha256Hex_length (msg : List Nat) : (sha256Hex msg).length = 64 := by
  simp [sha256Hex, sha256Words, String.length, List.flatMap, toHexPad_length]

/-- A SHA-1 hex digest is 40 hex characters. -/
theorem sha1Hex_length (msg : List Nat) : (sha1Hex msg).length = 40 := by
  simp [sha1Hex, sha1Words, String.length, List.flatMap, toHexPad_length]

/-- Claim C4: the identity function is deterministic over field values —
two `DataMeta` records agreeing on every field (timestamp included) get
the same identifier; the function reads nothing but the record. -/
theorem meta_identifier_deterministic (a b : DataMeta)
    (hdt : a.created_datetime = b.created_datetime) (hty : a.type = b.type)
    (how : a.owner = b.owner) (hcr : a.creator = b.creator)
    (hso : a.source = b.source) :
    meta_identifier a = meta_identifier b := by
  have hab : a = b := by
    obtain ⟨_, _, _, _, _⟩ := a
    obtain ⟨_, _, _, _, _⟩ := b
    simp_all
  rw [hab]

/-- Witness for claim C4 on two independently constructed records. -/
theorem meta_identifier_deterministic_witness :
    (sampleMeta.created_datetime = sampleMetaTwin.created_datetime ∧
     sampleMeta.type = sampleMetaTwin.type ∧
     sampleMeta.owner = sampleMetaTwin.owner ∧
     sampleMeta.creator = sampleMetaTwin.creator ∧
     sampleMeta.source = sampleMetaTwin.source) ∧
    meta_identifier sampleMeta = meta_identifier sampleMetaTwin :=
  ⟨⟨rfl, rfl, rfl, rfl, rfl⟩,
   meta_identifier_deterministic sampleMeta sampleMetaTwin rfl rfl rfl rfl rfl⟩

/-- Claim C5: the identifier of a record is the SHA-256 hex digest and the
SHA-1 hex digest of the same canonical JSON byte encoding of the record,
joined as `primary:secondary`; the two digests are full-width (64 and 40
hex characters). -/
theorem meta_identifier_scheme (m : DataMeta) :
    meta_identifier m =
      sha256Hex (utf8Encode (DataMeta.dumpJson m)) ++ ":" ++
        sha1Hex (utf8Encode (DataMeta.dumpJson m)) ∧
    (sha256Hex (utf8Encode (DataMeta.dumpJson m))).length = 64 ∧
    (sha1Hex (utf8Encode (DataMeta.dumpJson m))).length = 40 :=
  ⟨rfl, sha256Hex_length _, sha1Hex_length _⟩

/-- Claim C3: `add` and `search` against a collection name the engine does
not list fail with the collection-does-not-exist error, and the engine
trace holds only the `list_collections` read — no mutation, no query, not
even a `get_collection`. -/
theorem missing_collection_fails (e : Engine) (cn ds : String) (limit : Nat)
    (items : PyIterable) (h : VectorDatabase.has_collection e cn = false) :
    VectorDatabase.search e cn ds limit =
      (.error (.valueError ("Collection " ++ cn ++ " does not exist.")),
       [.list_collections]) ∧
    VectorDatabase.add e cn items =
      (.error (.valueError ("Collection " ++ cn ++ " does not exist.")),
       [.list_collections]) := by
  constructor <;> simp [VectorDatabase.search, VectorDatabase.add, h]

/-- Witness for claim C3 on an engine with no collections. -/
theorem missing_collection_fails_witness :
    VectorDatabase.has_collection emptyEngine "notes" = false ∧
    VectorDatabase.search emptyEngine "notes" "q" 3 =
      (.error (.valueError "Collection notes does not exist."), [.list_collections]) ∧
    VectorDatabase.add emptyEngine "notes" (.pyList [sampleData]) =
      (.error (.valueError "Collection notes does not exist."), [.list_collections]) :=
  ⟨rfl,
   (missing_collection_fails emptyEngine "notes" "q" 3 (.pyList [sampleData]) rfl).1,
   (missing_collection_fails emptyEngine "notes" "q" 3 (.pyList [sampleData]) rfl).2⟩

/-- Claim C8: against an existing collection and a (re-iterable) list of
items, `add` issues exactly one engine `add` call, whose three lists are
the element-wise content, flattened metadata and identifier of the items,
in order. -/
theorem add_single_batched_call (e : Engine) (cn : String) (l : List Data)
    (h : VectorDatabase.has_collection e cn = true) :
    VectorDatabase.add e cn (.pyList l) =
      (.ok (), [.list_collections, .get_collection cn,
        .add cn (l.map fun v => v.content)
          (l.map fun v => flatDict (DataMeta.dump v.meta))
          (l.map fun v => meta_identifier v.meta)]) := by
  obtain ⟨c, hc⟩ := getCollection_of_has e cn h
  simp [VectorDatabase.add, h, hc, iterateAll]

/-- Witness for claim C8 on the sample engine. -/
theorem add_single_batched_call_witness :
    VectorDatabase.has_collection sampleEngine "notes" = true ∧
    VectorDatabase.add sampleEngine "notes" (.pyList [sampleData]) =
      (.ok (), [.list_collections, .get_collection "notes",
        .add "notes" [sampleData.content] [flatDict (DataMeta.dump sampleData.meta)]
          [meta_identifier sampleData.meta]]) :=
  ⟨rfl, add_single_batched_call sampleEngine "notes" [sampleData] rfl⟩

/-- Claim C9: against an existing collection, `search` queries the engine
once with `n_results = limit`, consumes only the first result group, and
returns exactly the element-wise reconstruction of the returned
(flat-metadata, content) pairs in the engine's order. -/
theorem search_delegates_to_engine (e : Engine) (cn ds : String) (limit : Nat)
    (c : Collection) (ms : List FlatMap) (mrest : List (List FlatMap))
    (docs : List String) (drest : List (List String)) (l : List Data)
    (hcol : VectorDatabase.has_collection e cn = true)
    (hc : getCollection e cn = some c)
    (hm : (c.queryFn ds limit).metadatas = ms :: mrest)
    (hd : (c.queryFn ds limit).documents = docs :: drest)
    (hv : mapEx reconstructPair (ms.zip docs) = .ok l) :
    VectorDatabase.search e cn ds limit =
      (.ok l, [.list_collections, .get_collection cn, .query cn ds limit]) ∧
    (ms.zip docs).map reconstructPair = l.map Except.ok := by
  constructor
  · simp [VectorDatabase.search, hcol, hc, hm, hd, hv]
  · exact mapEx_ok_map reconstructPair (ms.zip docs) l hv

/-- Witness for claim C9 on the sample engine. -/
theorem search_delegates_to_engine_witness :
    VectorDatabase.has_collection sampleEngine "notes" = true ∧
    getCollection sampleEngine "notes" = some sampleCollection ∧
    (sampleCollection.queryFn "hello" 1).metadatas = [sampleFlat] :: [] ∧
    (sampleCollection.queryFn "hello" 1).documents = ["hello world"] :: [] ∧
    mapEx reconstructPair ([sampleFlat].zip ["hello world"]) = .ok [sampleData] ∧
    VectorDatabase.search sampleEngine "notes" "hello" 1 =
      (.ok [sampleData],
       [.list_collections, .get_collection "notes", .query "notes" "hello" 1]) := by
  refine ⟨rfl, rfl, rfl, rfl, by decide, ?_⟩
  exact (search_delegates_to_engine sampleEngine "notes" "hello" 1 sampleCollection
    [sampleFlat] [] ["hello world"] [] [sampleData] rfl rfl rfl rfl (by decide)).1

/-- Claim C10: `add` traverses its `items` argument three separate times;
a re-iterable list yields three aligned lists, while a single-use iterator
is exhausted by the first traversal, so the engine receives a non-empty
documents list but empty metadata and id lists. -/
theorem add_iterator_exhaustion (e : Engine) (cn : String) (l : List Data)
    (h : VectorDatabase.has_collection e cn = true) (hne : l ≠ []) :
    VectorDatabase.add e cn (.pyIter l) =
      (.ok (), [.list_collections, .get_collection cn,
        .add cn (l.map fun v => v.content) [] []]) ∧
    l.map (fun v => v.content) ≠ [] ∧
    VectorDatabase.add e cn (.pyList l) =
      (.ok (), [.list_collections, .get_collection cn,
        .add cn (l.map fun v => v.content)
          (l.map fun v => flatDict (DataMeta.dump v.meta))
          (l.map fun v => meta_identifier v.meta)]) := by
  obtain ⟨c, hc⟩ := getCollection_of_has e cn h
  refine ⟨?_, ?_, ?_⟩
  · simp [VectorDatabase.add, h, hc, iterateAll]
  · simpa using hne
  · simp [VectorDatabase.add, h, hc, iterateAll]

/-- Witness for claim C10 on the sample engine. -/
theorem add_iterator_exhaustion_witness :
    VectorDatabase.has_collection sampleEngine "notes" = true ∧
    ([sampleData] ≠ ([] : List Data)) ∧
    VectorDatabase.add sampleEngine "notes" (.pyIter [sampleData]) =
      (.ok (), [.list_collections, .get_collection "notes",
        .add "notes" [sampleData.content] [] []]) :=
  ⟨rfl, by simp,
   (add_iterator_exhaustion sampleEngine "notes" [sampleData] rfl (by simp)).1⟩
